import Mathlib

/-!
Verification development for the portal-fmea repository (React/TypeScript +
Firestore).  The definitions below are a shallow embedding of the canonical
application variant: `src/types.ts` (richer variant with `DELETED` status and
`deletedAt` fields), `src/services/portal.ts`, `src/services/auth.ts`,
`src/hooks/useAuth.ts`, and the first `App` component in `src/App.tsx`
(lines 1-1958).  The Firestore document store is modelled as explicit lists of
records; Firestore auto-generated notification document ids are modelled by a
counter (`nextNotifId`) allocating fresh natural-number ids.  Query `orderBy`
and `limit` clauses are pagination/display concerns and are omitted from the
scope embedding, except for the `limit(200)` in `deleteProject`, which bounds
how many documents the cascade can delete and is therefore kept.
-/

namespace PortalFMEA

/-- Role enum from `types.ts`: `"ADMIN" | "PRESTADOR"`. -/
inductive UserRole
  | ADMIN
  | PRESTADOR
deriving DecidableEq, Repr

/-- User status enum from `types.ts` (richer variant):
`"PENDING" | "ACTIVE" | "REJECTED" | "DELETED"`. -/
inductive UserStatus
  | PENDING
  | ACTIVE
  | REJECTED
  | DELETED
deriving DecidableEq, Repr

/-- Delivery status enum from `types.ts`:
`"PENDENTE" | "REVISAO" | "AJUSTES" | "APROVADO" | "ATRASADO"`. -/
inductive Status
  | PENDENTE
  | REVISAO
  | AJUSTES
  | APROVADO
  | ATRASADO
deriving DecidableEq, Repr

/-- Priority enum from `types.ts`: `"BAIXA" | "MEDIA" | "ALTA"`. -/
inductive Priority
  | BAIXA
  | MEDIA
  | ALTA
deriving DecidableEq, Repr

/-- Notification type enum from `types.ts`. -/
inductive NotificationType
  | COMMENT
  | SUBMITTED
  | APPROVED
  | ADJUST_REQUESTED
deriving DecidableEq, Repr

/-- Project status enum from `types.ts`:
`"EM_ANDAMENTO" | "CONCLUIDO" | "CANCELADO"`. -/
inductive ProjectStatus
  | EM_ANDAMENTO
  | CONCLUIDO
  | CANCELADO
deriving DecidableEq, Repr

/-- Record `UserProfile` from `types.ts`.  Optional TS fields are `Option`;
`pixKey`/`photoURL` are kept as plain strings (empty means absent, matching
the code which writes `""` defaults). -/
structure UserProfile where
  uid : String
  email : String
  name : String
  role : UserRole
  status : UserStatus
  active : Bool
  pixKey : String := ""
  photoURL : String := ""
  createdAt : Nat := 0
  approvedAt : Option Nat := none
  deletedAt : Option Nat := none
deriving DecidableEq, Repr

/-- Record `Comment` from `types.ts`. -/
structure Comment where
  id : String
  authorUid : String
  authorName : String
  date : String
  text : String
  createdAt : Nat
deriving DecidableEq, Repr

/-- Metadata record `Attachment` from `types.ts` (no binary payload). -/
structure Attachment where
  id : String
  name : String
  date : String := ""
  uploaderUid : String := ""
  uploaderName : String := ""
  url : String := ""
  notes : String := ""
  createdAt : Nat := 0
deriving DecidableEq, Repr

/-- Record `ChecklistItem` from `types.ts`. -/
structure ChecklistItem where
  id : String
  label : String
  completed : Bool
deriving DecidableEq, Repr

/-- Record `Delivery` from `types.ts`.  `providerUid?: string` is modelled as
a plain string where `""` stands for the absent/falsy value, matching the
truthiness guards `d.providerUid &&` in the code. -/
structure Delivery where
  id : String
  projectId : String
  client : String
  project : String
  title : String
  deadline : String
  status : Status
  priority : Priority
  provider : String
  providerUid : String := ""
  description : String := ""
  checklist : List ChecklistItem := []
  attachments : List Attachment := []
  comments : List Comment := []
  createdAt : Nat := 0
  deletedAt : Option Nat := none
deriving DecidableEq, Repr

/-- Record `Project` from `types.ts`.  `memberUids?: string[]` defaults to
the empty list when absent (an absent array field matches no
`array-contains` query, exactly like the empty list). -/
structure Project where
  id : String
  client : String
  name : String
  description : String := ""
  manager : String
  managerUid : String := ""
  memberUids : List String := []
  status : ProjectStatus
  completionRate : Nat := 0
  createdAt : Nat := 0
  updatedAt : Option Nat := none
  deletedAt : Option Nat := none
deriving DecidableEq, Repr

/-- Record `AppNotification` from `types.ts`.  The Firestore auto-id is
modelled as a `Nat` allocated from the store's `nextNotifId` counter. -/
structure AppNotification where
  id : Nat
  toUid : String
  type : NotificationType
  title : String
  projectId : String := ""
  deliveryId : String := ""
  createdAt : Nat := 0
  read : Bool
deriving DecidableEq, Repr

/-- The Firestore document store visible to the application: the four
top-level collections used by the canonical variant, plus the fresh-id
counter for notification documents. -/
structure Store where
  users : List UserProfile
  projects : List Project
  deliveries : List Delivery
  notifications : List AppNotification
  nextNotifId : Nat
deriving DecidableEq, Repr

/-! ### Helpers from `App.tsx` -/

/-- One pass of trim-and-collapse over the character list: `emitted` records
whether a word character has been produced already, `pendingWS` whether a
whitespace run is open.  Leading and trailing whitespace vanish; every inner
whitespace run becomes a single space. -/
def squishAux (emitted pendingWS : Bool) : List Char → List Char
  | [] => []
  | c :: cs =>
      if c.isWhitespace then squishAux emitted true cs
      else if emitted && pendingWS then ' ' :: c :: squishAux true false cs
      else c :: squishAux true false cs

/-- Function `sanitize` from `App.tsx`: `(s || "").trim().replace(/\s+/g, " ")` —
trim, then collapse every whitespace run to a single space. -/
def sanitize (s : String) : String :=
  String.mk (squishAux false false s.toList)

/-- Function `isValidDateISO` from `App.tsx`: the regex test
`/^\d{4}-\d{2}-\d{2}$/.test(date)`. -/
def isValidDateISO (date : String) : Bool :=
  match date.toList with
  | [a, b, c, d, '-', e, f, '-', g, h] =>
      [a, b, c, d, e, f, g, h].all Char.isDigit
  | _ => false

/-! ### User mutations (`services/portal.ts`, `services/auth.ts`,
`hooks/useAuth.ts`) -/

/-- Function `approveUser` from `services/portal.ts`: sets role, `status: "ACTIVE"`,
`active: true`, `approvedAt: Date.now()` on the user document. -/
def approveUser (role : UserRole) (now : Nat) (u : UserProfile) : UserProfile :=
  { u with role := role, status := .ACTIVE, active := true, approvedAt := some now }

/-- Function `rejectUser` from `services/portal.ts`: sets `status: "REJECTED"`,
`active: false`. -/
def rejectUser (u : UserProfile) : UserProfile :=
  { u with status := .REJECTED, active := false }

/-- Function `softDeleteUser` from `services/portal.ts`: sets `status: "DELETED"`,
`active: false`, `deletedAt: Date.now()`. -/
def softDeleteUser (now : Nat) (u : UserProfile) : UserProfile :=
  { u with status := .DELETED, active := false, deletedAt := some now }

/-- The profile written by `signupEmail` in `services/auth.ts`:
`role: "PRESTADOR", status: "PENDING", active: false`. -/
def signupProfile (uid email name pixKey : String) (now : Nat) : UserProfile :=
  { uid := uid, email := email, name := name, role := .PRESTADOR,
    status := .PENDING, active := false, pixKey := pixKey, photoURL := "",
    createdAt := now }

/-- The profile written by `loginGoogle` in `services/auth.ts` (and the
default profile created by `useAuth` on first sign-in) when no document
exists yet: `role: "PRESTADOR", status: "PENDING", active: false`. -/
def firstSignInProfile (uid email name photoURL : String) (now : Nat) : UserProfile :=
  { uid := uid, email := email, name := name, role := .PRESTADOR,
    status := .PENDING, active := false, photoURL := photoURL,
    createdAt := now }

/-- The merge performed by `loginGoogle` when a profile already exists:
it only refreshes `email`, `name` and `photoURL`, leaving `role`, `status`
and `active` untouched. -/
def googleMergeProfile (email name photoURL : String) (u : UserProfile) : UserProfile :=
  { u with
    email := if email = "" then u.email else email,
    name := if name = "" then u.name else name,
    photoURL := if photoURL = "" then u.photoURL else photoURL }

/-- Every write to an existing user document performed by the canonical
variant (the three admin actions from `services/portal.ts` and the
merge write from `loginGoogle`). -/
inductive UserWrite
  | approve (role : UserRole) (now : Nat)
  | reject
  | softDelete (now : Nat)
  | googleMerge (email name photoURL : String)
deriving DecidableEq, Repr

/-- Apply a `UserWrite` to a user document. -/
def applyUserWrite : UserWrite → UserProfile → UserProfile
  | .approve role now, u => approveUser role now u
  | .reject, u => rejectUser u
  | .softDelete now, u => softDeleteUser now u
  | .googleMerge e n p, u => googleMergeProfile e n p u

/-- The profile invariant claimed for every reachable user document:
the `active` flag agrees with `status == "ACTIVE"`. -/
def activeConsistent (u : UserProfile) : Prop :=
  u.active = true ↔ u.status = UserStatus.ACTIVE

instance (u : UserProfile) : Decidable (activeConsistent u) := by
  unfold activeConsistent; infer_instance

/-! ### Scoped queries (`services/portal.ts`) and the live-subscription
handlers (`App.tsx` lines 226-312).

A Firestore query with `where` clauses is embedded as the sub-list of
collection documents matching the conjunction of its equality /
array-membership filters; `orderBy` and `limit` only order and paginate the
matching set and are omitted. -/

/-- Function `getBaseUsersQuery` from `services/portal.ts`: an admin reads the whole
collection (the `DELETED` filter happens client-side in the subscription
handler); a contractor reads only `status == "ACTIVE" && active == true`
documents. -/
def getBaseUsersQuery (isAdmin : Bool) (users : List UserProfile) : List UserProfile :=
  if isAdmin then users
  else users.filter (fun u => u.status = UserStatus.ACTIVE && u.active)

/-- Function `getBaseProjectsQuery` from `services/portal.ts`: an admin reads all
projects; a contractor reads only `memberUids array-contains uid`. -/
def getBaseProjectsQuery (isAdmin : Bool) (uid : String) (projects : List Project) :
    List Project :=
  if isAdmin then projects
  else projects.filter (fun p => p.memberUids.contains uid)

/-- Function `getBaseDeliveriesQuery` from `services/portal.ts`: an admin reads all
deliveries; a contractor reads only `providerUid == uid`. -/
def getBaseDeliveriesQuery (isAdmin : Bool) (uid : String) (deliveries : List Delivery) :
    List Delivery :=
  if isAdmin then deliveries
  else deliveries.filter (fun d => d.providerUid = uid)

/-- The `onSnapshot(usersQ)` handler in `App.tsx` (lines 236-251): it takes
the query result and filters out `status == "DELETED"` client-side. -/
def usersListing (isAdmin : Bool) (users : List UserProfile) : List UserProfile :=
  (getBaseUsersQuery isAdmin users).filter (fun u => u.status ≠ UserStatus.DELETED)

/-- The `onSnapshot(projectsQ)` handler in `App.tsx` (lines 255-272): it
filters out documents carrying a `deletedAt` mark. -/
def projectsListing (isAdmin : Bool) (uid : String) (projects : List Project) :
    List Project :=
  (getBaseProjectsQuery isAdmin uid projects).filter (fun p => p.deletedAt = none)

/-- The `onSnapshot(deliveriesQ)` handler in `App.tsx` (lines 276-290): it
filters out documents carrying a `deletedAt` mark. -/
def deliveriesListing (isAdmin : Bool) (uid : String) (deliveries : List Delivery) :
    List Delivery :=
  (getBaseDeliveriesQuery isAdmin uid deliveries).filter (fun d => d.deletedAt = none)

/-! ### Project and delivery repository operations (`services/portal.ts`) -/

/-- Function `createDelivery` from `services/portal.ts`: `addDoc` of the payload with
`attachments: []` and `comments: []` forced.  The payload is a `Delivery`
whose `attachments`/`comments` the function overrides. -/
def createDelivery (payload : Delivery) (st : Store) : Store :=
  { st with deliveries :=
      st.deliveries ++ [{ payload with attachments := [], comments := [] }] }

/-- Function `deleteDelivery` from `services/portal.ts`: `deleteDoc` — the document is
physically removed. -/
def deleteDelivery (deliveryId : String) (st : Store) : Store :=
  { st with deliveries := st.deliveries.filter (fun d => d.id ≠ deliveryId) }

/-- Remove the first `k` documents of the list whose `projectId` matches
`pid` (the batch in `deleteProject` deletes the up-to-200 documents returned
by the `limit(200)` query). -/
def removeMatching (pid : String) : Nat → List Delivery → List Delivery
  | _, [] => []
  | 0, l => l
  | k + 1, d :: rest =>
      if d.projectId = pid then removeMatching pid k rest
      else d :: removeMatching pid (k + 1) rest

/-- Function `deleteProject` from `services/portal.ts`: one batch that hard-deletes
the project document together with the deliveries returned by
`query(deliveries, where projectId == pid, limit(200))` — at most 200
cascade victims. -/
def deleteProject (projectId : String) (st : Store) : Store :=
  { st with
    projects := st.projects.filter (fun p => p.id ≠ projectId),
    deliveries := removeMatching projectId 200 st.deliveries }

/-- Call to `updateDelivery` with a status-only patch, from
`services/portal.ts` as called by `setDeliveryStatus`. -/
def updateDeliveryStatus (deliveryId : String) (newStatus : Status)
    (deliveries : List Delivery) : List Delivery :=
  deliveries.map (fun d => if d.id = deliveryId then { d with status := newStatus } else d)

/-! ### Notification fan-out and status transitions (`App.tsx`) -/

/-- The admin-recipient filter used by `setDeliveryStatus` and `addComment`:
`usersList.filter(u => u.role === "ADMIN" && u.active && u.status === "ACTIVE")`. -/
def activeAdminsOf (usersList : List UserProfile) : List UserProfile :=
  usersList.filter
    (fun u => u.role = UserRole.ADMIN && u.active && u.status = UserStatus.ACTIVE)

/-- Construct the notification documents `addDoc`-ed by one fan-out: one
record per recipient, `read: false`, ids allocated from the store's counter. -/
def fanoutNotifs (type : NotificationType) (title projectId deliveryId : String)
    (now : Nat) : List String → Nat → List AppNotification
  | [], _ => []
  | r :: rest, idBase =>
      { id := idBase, toUid := r, type := type, title := title,
        projectId := projectId, deliveryId := deliveryId,
        createdAt := now, read := false } ::
        fanoutNotifs type title projectId deliveryId now rest (idBase + 1)

/-- Append freshly fanned-out notifications to the store, bumping the
fresh-id counter. -/
def pushNotifs (recipients : List String) (type : NotificationType)
    (title projectId deliveryId : String) (now : Nat) (st : Store) : Store :=
  { st with
    notifications := st.notifications ++
      fanoutNotifs type title projectId deliveryId now recipients st.nextNotifId,
    nextNotifId := st.nextNotifId + recipients.length }

/-- Function `setDeliveryStatus` from `App.tsx` (lines 662-715).  The function looks
the delivery up in the live list, returns silently when absent, otherwise
writes `{ status: newStatus }` unconditionally — it checks no transition
table and no precondition — and then runs the role/target-dependent
notification fan-out.  `callerRole` is `profile.role`; the recipient list
for the contractor branch is computed from `usersList`, the caller's users
subscription. -/
def setDeliveryStatus (callerRole : UserRole) (deliveryId : String)
    (newStatus : Status) (now : Nat) (st : Store) : Store :=
  match st.deliveries.find? (fun x => x.id = deliveryId) with
  | none => st
  | some d =>
    let st1 : Store := { st with deliveries := updateDeliveryStatus deliveryId newStatus st.deliveries }
    let usersList := usersListing (callerRole = UserRole.ADMIN) st.users
    let st2 : Store :=
      if callerRole = UserRole.PRESTADOR ∧ newStatus = Status.REVISAO then
        pushNotifs ((activeAdminsOf usersList).map (fun u => u.uid)) .SUBMITTED
          ("Entrega enviada para revisão: " ++ d.title) d.projectId d.id now st1
      else st1
    let st3 : Store :=
      if callerRole = UserRole.ADMIN ∧ newStatus = Status.AJUSTES ∧ d.providerUid ≠ "" then
        pushNotifs [d.providerUid] .ADJUST_REQUESTED
          ("Ajustes solicitados: " ++ d.title) d.projectId d.id now st2
      else st2
    if callerRole = UserRole.ADMIN ∧ newStatus = Status.APROVADO ∧ d.providerUid ≠ "" then
      pushNotifs [d.providerUid] .APPROVED
        ("Entrega aprovada: " ++ d.title) d.projectId d.id now st3
    else st3

/-- Function `addComment` from `App.tsx` (lines 615-659): appends a comment to the
delivery's inline `comments` array and, when the caller is a contractor,
fans out one `COMMENT` notification per active admin. -/
def addComment (caller : UserProfile) (deliveryId rawText commentId : String)
    (now : Nat) (st : Store) : Store :=
  let text := sanitize rawText
  if text = "" then st
  else
    match st.deliveries.find? (fun x => x.id = deliveryId) with
    | none => st
    | some d =>
      let newComment : Comment :=
        { id := commentId, authorUid := caller.uid, authorName := caller.name,
          date := "", text := text, createdAt := now }
      let newDeliveries := st.deliveries.map (fun x =>
        if x.id = deliveryId then { x with comments := x.comments ++ [newComment] } else x)
      let st1 : Store := { st with deliveries := newDeliveries }
      if caller.role = UserRole.PRESTADOR then
        let usersList := usersListing (caller.role = UserRole.ADMIN) st.users
        pushNotifs ((activeAdminsOf usersList).map (fun u => u.uid)) .COMMENT
          ("Novo comentário: " ++ d.title) d.projectId d.id now st1
      else st1

/-- Function `markAllNotificationsRead` from `App.tsx` (lines 717-726): every unread
notification of the caller's subscription (`toUid == user.uid`) is updated
with `{ read: true }`. -/
def markAllNotificationsRead (callerUid : String) (st : Store) : Store :=
  { st with notifications :=
      st.notifications.map (fun n =>
        if n.toUid = callerUid ∧ n.read = false then { n with read := true } else n) }

/-! ### UI transition gating (`App.tsx` lines 1806-1822)

`setDeliveryStatus` itself has no role/state check; the only gating in the
canonical variant is which buttons the delivery-detail view renders. -/

/-- The contractor's "Enviar para revisão" button is rendered exactly when
`role === "PRESTADOR" && selectedDelivery.status !== "APROVADO"`. -/
def prestadorSubmitOffered (role : UserRole) (d : Delivery) : Bool :=
  role = UserRole.PRESTADOR && d.status ≠ Status.APROVADO

/-- The admin's "Aprovar" / "Pedir ajustes" buttons are rendered exactly
when `role === "ADMIN" && selectedDelivery.status === "REVISAO"`. -/
def adminReviewOffered (role : UserRole) (d : Delivery) : Bool :=
  role = UserRole.ADMIN && d.status = Status.REVISAO

/-! ### Delivery creation flow (`App.tsx` lines 552-598) -/

/-- The delivery-creation form state in `App.tsx`. -/
structure DeliveryForm where
  projectId : String
  title : String
  deadline : String
  priority : Priority
  providerUid : String
  providerName : String
  description : String
deriving DecidableEq, Repr

/-- Function `projectMembers` from `App.tsx` (lines 552-559): the contractors offered
by the creation form's dropdown — active `PRESTADOR` accounts that are
members of the selected project. -/
def projectMembers (projectId : String) (projects : List Project)
    (usersList : List UserProfile) : List UserProfile :=
  if projectId = "" then []
  else
    let memberUids := (projects.find? (fun x => x.id = projectId)).elim [] (fun p => p.memberUids)
    (usersList.filter (fun u =>
      u.role = UserRole.PRESTADOR && u.active && u.status = UserStatus.ACTIVE)).filter
      (fun u => memberUids.contains u.uid)

/-- Function `createProject` from `services/portal.ts`: `addDoc` of the payload built
by `saveProject` in `App.tsx`. -/
def createProject (p : Project) (st : Store) : Store :=
  { st with projects := st.projects ++ [p] }

/-- Function `updateProject` from `services/portal.ts` as called by
`saveProjectEdits` in `App.tsx`: patches `client`, `name`, `description`,
`memberUids` and stamps `updatedAt: Date.now()`. -/
def updateProject (pid client name description : String)
    (memberUids : List String) (now : Nat) (st : Store) : Store :=
  { st with projects := st.projects.map (fun p =>
      if p.id = pid then
        { p with client := client, name := name, description := description,
                 memberUids := memberUids, updatedAt := some now }
      else p) }

/-- Function `saveDelivery` from `App.tsx` (lines 561-598).  Validations performed,
in order: caller must be `ADMIN`; the selected project must exist; sanitized
title nonempty; deadline a valid ISO date; `providerUid` nonempty.  No
membership check between `providerUid` and the project's `memberUids` is
performed — on success `createDelivery` writes the document. -/
def saveDelivery (profile : UserProfile) (form : DeliveryForm) (now : Nat)
    (st : Store) : Store :=
  if profile.role ≠ UserRole.ADMIN then st
  else
    match st.projects.find? (fun x => x.id = form.projectId) with
    | none => st
    | some p =>
      let title := sanitize form.title
      if title = "" then st
      else if ¬ isValidDateISO form.deadline then st
      else if form.providerUid = "" then st
      else
        createDelivery
          { id := "",
            projectId := p.id, client := p.client, project := p.name,
            title := title, deadline := form.deadline,
            status := Status.PENDENTE, priority := form.priority,
            provider := if form.providerName = "" then "Prestador" else form.providerName,
            providerUid := form.providerUid,
            description := sanitize form.description,
            checklist := [], createdAt := now } st

/-! ### The mutation surface of the canonical variant

Every store-mutating operation the first `App` component can issue (user
administration, project CRUD, delivery CRUD, status transitions, comments,
marking notifications read), as one step relation for reachability
arguments. -/

/-- A single store mutation issued by the application. -/
inductive Op
  | userWrite (uid : String) (w : UserWrite)
  | newProject (p : Project)
  | editProject (pid client name description : String)
      (memberUids : List String) (now : Nat)
  | removeProject (pid : String)
  | newDelivery (profile : UserProfile) (form : DeliveryForm) (now : Nat)
  | removeDelivery (did : String)
  | setStatus (role : UserRole) (did : String) (ns : Status) (now : Nat)
  | comment (caller : UserProfile) (did text cid : String) (now : Nat)
  | markAllRead (uid : String)
deriving Repr

/-- Apply one operation to the store. -/
def applyOp : Op → Store → Store
  | .userWrite uid w, st =>
      { st with users := st.users.map (fun u => if u.uid = uid then applyUserWrite w u else u) }
  | .newProject p, st => createProject p st
  | .editProject pid c n de m now, st => updateProject pid c n de m now st
  | .removeProject pid, st => deleteProject pid st
  | .newDelivery profile form now, st => saveDelivery profile form now st
  | .removeDelivery did, st => deleteDelivery did st
  | .setStatus role did ns now, st => setDeliveryStatus role did ns now st
  | .comment caller did text cid now, st => addComment caller did text cid now st
  | .markAllRead uid, st => markAllNotificationsRead uid st

/-- Run a sequence of operations left to right. -/
def runOps (ops : List Op) (st : Store) : Store :=
  ops.foldl (fun s op => applyOp op s) st

/-- Observe the `read` flag of the notification document with a given id. -/
def readOf (st : Store) (i : Nat) : Option Bool :=
  (st.notifications.find? (fun n => n.id = i)).map (fun n => n.read)

/-! ### Helper lemmas -/

lemma pushNotifs_deliveries (rs : List String) (t : NotificationType)
    (ti pi di : String) (now : Nat) (st : Store) :
    (pushNotifs rs t ti pi di now st).deliveries = st.deliveries := rfl

lemma pushNotifs_notifications (rs : List String) (t : NotificationType)
    (ti pi di : String) (now : Nat) (st : Store) :
    (pushNotifs rs t ti pi di now st).notifications =
      st.notifications ++ fanoutNotifs t ti pi di now rs st.nextNotifId := rfl

lemma mem_updateDeliveryStatus {did : String} {ns : Status} {l : List Delivery}
    {x : Delivery} (hx : x ∈ updateDeliveryStatus did ns l) (hid : x.id = did) :
    x.status = ns := by
  unfold updateDeliveryStatus at hx
  rcases List.mem_map.mp hx with ⟨a, _, ha⟩
  by_cases h : a.id = did
  · simp only [h, if_true] at ha
    subst ha; rfl
  · simp only [h, if_false] at ha
    subst ha; exact absurd hid h

lemma setDeliveryStatus_deliveries_of_found {role : UserRole} {did : String}
    {ns : Status} {now : Nat} {st : Store} {d : Delivery}
    (hd : st.deliveries.find? (fun x => x.id = did) = some d) :
    (setDeliveryStatus role did ns now st).deliveries =
      updateDeliveryStatus did ns st.deliveries := by
  unfold setDeliveryStatus
  rw [hd]
  dsimp only
  split <;> split <;> split <;> rfl

lemma setDeliveryStatus_not_found {role : UserRole} {did : String}
    {ns : Status} {now : Nat} {st : Store}
    (hd : st.deliveries.find? (fun x => x.id = did) = none) :
    setDeliveryStatus role did ns now st = st := by
  unfold setDeliveryStatus
  rw [hd]

lemma mem_fanoutNotifs {t : NotificationType} {ti pi di : String} {now : Nat}
    {rs : List String} {ib : Nat} {n : AppNotification}
    (h : n ∈ fanoutNotifs t ti pi di now rs ib) :
    n.type = t ∧ n.read = false ∧ n.projectId = pi ∧ n.deliveryId = di ∧
      n.toUid ∈ rs := by
  induction rs generalizing ib with
  | nil => cases h
  | cons r rest ih =>
    rw [fanoutNotifs] at h
    rcases List.mem_cons.mp h with h | h
    · subst h
      exact ⟨rfl, rfl, rfl, rfl, List.mem_cons_self _ _⟩
    · obtain ⟨h1, h2, h3, h4, h5⟩ := ih h
      exact ⟨h1, h2, h3, h4, List.mem_cons_of_mem _ h5⟩

lemma countP_toUid_fanoutNotifs (t : NotificationType) (ti pi di : String)
    (now : Nat) (rs : List String) (ib : Nat) (uid : String) :
    (fanoutNotifs t ti pi di now rs ib).countP (fun n => n.toUid = uid) =
      rs.countP (fun r => r = uid) := by
  induction rs generalizing ib with
  | nil => rfl
  | cons r rest ih =>
    rw [fanoutNotifs]
    simp only [List.countP_cons, ih]

lemma activeAdminsOf_usersListing (b : Bool) (us : List UserProfile) :
    activeAdminsOf (usersListing b us) = activeAdminsOf us := by
  unfold usersListing getBaseUsersQuery activeAdminsOf
  cases b
  · simp only [Bool.false_eq_true, if_false]
    rw [List.filter_filter, List.filter_filter]
    apply List.filter_congr
    intro u _
    rcases u with ⟨_, _, _, r, s, a, _, _, _, _, _⟩
    rcases r <;> rcases s <;> rcases a <;> rfl
  · simp only [if_true]
    rw [List.filter_filter]
    apply List.filter_congr
    intro u _
    rcases u with ⟨_, _, _, r, s, a, _, _, _, _, _⟩
    rcases r <;> rcases s <;> rcases a <;> rfl

lemma setDeliveryStatus_notifications_of_found {role : UserRole} {did : String}
    {ns : Status} {now : Nat} {st : Store} {d : Delivery}
    (hd : st.deliveries.find? (fun x => x.id = did) = some d) :
    (setDeliveryStatus role did ns now st).notifications =
      st.notifications ++
        (if role = UserRole.PRESTADOR ∧ ns = Status.REVISAO then
          fanoutNotifs .SUBMITTED ("Entrega enviada para revisão: " ++ d.title)
            d.projectId d.id now
            ((activeAdminsOf st.users).map (fun u => u.uid)) st.nextNotifId
        else if role = UserRole.ADMIN ∧ ns = Status.AJUSTES ∧ d.providerUid ≠ "" then
          [{ id := st.nextNotifId, toUid := d.providerUid,
             type := .ADJUST_REQUESTED,
             title := "Ajustes solicitados: " ++ d.title, projectId := d.projectId,
             deliveryId := d.id, createdAt := now, read := false }]
        else if role = UserRole.ADMIN ∧ ns = Status.APROVADO ∧ d.providerUid ≠ "" then
          [{ id := st.nextNotifId, toUid := d.providerUid, type := .APPROVED,
             title := "Entrega aprovada: " ++ d.title, projectId := d.projectId,
             deliveryId := d.id, createdAt := now, read := false }]
        else []) := by
  unfold setDeliveryStatus
  rw [hd]
  dsimp only
  cases role <;> cases ns <;> by_cases hp : d.providerUid = "" <;>
    simp [pushNotifs, fanoutNotifs, hp, activeAdminsOf_usersListing]

lemma mem_activeAdminsOf {us : List UserProfile} {u : UserProfile}
    (h : u ∈ activeAdminsOf us) :
    u ∈ us ∧ u.role = UserRole.ADMIN ∧ u.active = true ∧
      u.status = UserStatus.ACTIVE := by
  unfold activeAdminsOf at h
  rcases List.mem_filter.mp h with ⟨hm, hb⟩
  refine ⟨hm, ?_⟩
  simpa [and_assoc] using hb

lemma countP_uid_eq_one {us : List UserProfile}
    (hnd : (us.map (fun u => u.uid)).Nodup) {u : UserProfile} (hu : u ∈ us)
    {P : UserProfile → Bool} (hP : P u = true) :
    us.countP (fun v => v.uid = u.uid && P v) = 1 := by
  induction us with
  | nil => cases hu
  | cons v t ih =>
    rw [List.map_cons, List.nodup_cons] at hnd
    obtain ⟨hv, hnd'⟩ := hnd
    rcases List.mem_cons.mp hu with rfl | hu'
    · rw [List.countP_cons]
      have hzero : t.countP (fun w => w.uid = u.uid && P w) = 0 := by
        rw [List.countP_eq_zero]
        intro w hw hcontra
        apply hv
        have huid : w.uid = u.uid := by
          have h2 := hcontra
          simp only [Bool.and_eq_true, decide_eq_true_eq] at h2
          exact h2.1
        rw [← huid]
        exact List.mem_map.mpr ⟨w, hw, rfl⟩
      rw [hzero]
      simp [hP]
    · have hne : v.uid ≠ u.uid := by
        intro he
        apply hv
        rw [he]
        exact List.mem_map.mpr ⟨u, hu', rfl⟩
      rw [List.countP_cons, ih hnd' hu']
      simp [hne]

/-! ### Claim theorems -/

/-- C3: on a successful status transition exactly the specified notification
side effects occur.  A contractor-driven move to `REVISAO` creates one
notification per currently-active admin (role `ADMIN`, `active` true, status
`ACTIVE`), each with type `SUBMITTED` and `read = false`, and nothing else;
an admin-driven move to `AJUSTES` (resp. `APROVADO`) creates exactly one
notification with type `ADJUST_REQUESTED` (resp. `APPROVED`) addressed to
the delivery's assigned contractor (`providerUid`); every other combination
creates no notification. -/
theorem setDeliveryStatus_notification_side_effects
    (role : UserRole) (did : String) (ns : Status) (now : Nat) (st : Store)
    (d : Delivery)
    (hd : st.deliveries.find? (fun x => x.id = did) = some d)
    (hnd : (st.users.map (fun u => u.uid)).Nodup) :
    ∃ new,
      (setDeliveryStatus role did ns now st).notifications =
        st.notifications ++ new ∧
      (role = UserRole.PRESTADOR ∧ ns = Status.REVISAO →
        (∀ n ∈ new, n.type = NotificationType.SUBMITTED ∧ n.read = false) ∧
        (∀ u ∈ st.users, u.role = UserRole.ADMIN → u.active = true →
          u.status = UserStatus.ACTIVE →
            new.countP (fun n => n.toUid = u.uid) = 1) ∧
        (∀ n ∈ new, ∃ u, u ∈ st.users ∧ u.uid = n.toUid ∧
          u.role = UserRole.ADMIN ∧ u.active = true ∧
          u.status = UserStatus.ACTIVE)) ∧
      (role = UserRole.ADMIN ∧ ns = Status.AJUSTES ∧ d.providerUid ≠ "" →
        new.map (fun n => (n.toUid, n.type, n.read)) =
          [(d.providerUid, NotificationType.ADJUST_REQUESTED, false)]) ∧
      (role = UserRole.ADMIN ∧ ns = Status.APROVADO ∧ d.providerUid ≠ "" →
        new.map (fun n => (n.toUid, n.type, n.read)) =
          [(d.providerUid, NotificationType.APPROVED, false)]) ∧
      (¬(role = UserRole.PRESTADOR ∧ ns = Status.REVISAO) →
        ¬(role = UserRole.ADMIN ∧ ns = Status.AJUSTES ∧ d.providerUid ≠ "") →
        ¬(role = UserRole.ADMIN ∧ ns = Status.APROVADO ∧ d.providerUid ≠ "") →
        new = []) := by
  refine ⟨_, setDeliveryStatus_notifications_of_found hd, ?_, ?_, ?_, ?_⟩
  · rintro ⟨hr, hn⟩
    subst hr; subst hn
    rw [if_pos ⟨rfl, rfl⟩]
    refine ⟨?_, ?_, ?_⟩
    · intro n hn
      obtain ⟨h1, h2, _, _, _⟩ := mem_fanoutNotifs hn
      exact ⟨h1, h2⟩
    · intro u hu h1 h2 h3
      rw [countP_toUid_fanoutNotifs, List.countP_map]
      have hcomp :
          ((fun r => (r = u.uid : Bool)) ∘ fun v : UserProfile => v.uid) =
            fun v : UserProfile => (v.uid = u.uid : Bool) := rfl
      rw [hcomp]
      unfold activeAdminsOf
      rw [List.countP_filter]
      exact countP_uid_eq_one hnd hu (by simp [h1, h2, h3])
    · intro n hn
      obtain ⟨_, _, _, _, h5⟩ := mem_fanoutNotifs hn
      obtain ⟨u, hu, huid⟩ := List.mem_map.mp h5
      obtain ⟨hm, h1, h2, h3⟩ := mem_activeAdminsOf hu
      exact ⟨u, hm, huid, h1, h2, h3⟩
  · rintro ⟨hr, hn, hp⟩
    subst hr; subst hn
    rw [if_neg (by rintro ⟨h, -⟩; cases h), if_pos ⟨rfl, rfl, hp⟩]
    rfl
  · rintro ⟨hr, hn, hp⟩
    subst hr; subst hn
    rw [if_neg (by rintro ⟨h, -⟩; cases h),
        if_neg (by rintro ⟨-, h, -⟩; cases h), if_pos ⟨rfl, rfl, hp⟩]
    rfl
  · intro h1 h2 h3
    rw [if_neg h1, if_neg h2, if_neg h3]

/-- Concrete store for witness theorems: one active admin `a1` and one
pending delivery `d1` assigned to contractor `u1`. -/
def wAdmin : UserProfile :=
  { uid := "a1", email := "a@x", name := "A", role := .ADMIN,
    status := .ACTIVE, active := true }

def wDelivery : Delivery :=
  { id := "d1", projectId := "p1", client := "c", project := "P", title := "T",
    deadline := "2025-01-01", status := .PENDENTE, priority := .MEDIA,
    provider := "U", providerUid := "u1" }

def wStore : Store :=
  { users := [wAdmin], projects := [], deliveries := [wDelivery],
    notifications := [], nextNotifId := 0 }

/-- Witness for C3: the side-effect characterization applied to a concrete
contractor-driven submission on `wStore`. -/
theorem setDeliveryStatus_notification_side_effects_witness :
    ∃ new,
      (setDeliveryStatus UserRole.PRESTADOR "d1" Status.REVISAO 5 wStore).notifications =
        wStore.notifications ++ new ∧
      (UserRole.PRESTADOR = UserRole.PRESTADOR ∧ Status.REVISAO = Status.REVISAO →
        (∀ n ∈ new, n.type = NotificationType.SUBMITTED ∧ n.read = false) ∧
        (∀ u ∈ wStore.users, u.role = UserRole.ADMIN → u.active = true →
          u.status = UserStatus.ACTIVE →
            new.countP (fun n => n.toUid = u.uid) = 1) ∧
        (∀ n ∈ new, ∃ u, u ∈ wStore.users ∧ u.uid = n.toUid ∧
          u.role = UserRole.ADMIN ∧ u.active = true ∧
          u.status = UserStatus.ACTIVE)) ∧
      (UserRole.PRESTADOR = UserRole.ADMIN ∧ Status.REVISAO = Status.AJUSTES ∧
          wDelivery.providerUid ≠ "" →
        new.map (fun n => (n.toUid, n.type, n.read)) =
          [(wDelivery.providerUid, NotificationType.ADJUST_REQUESTED, false)]) ∧
      (UserRole.PRESTADOR = UserRole.ADMIN ∧ Status.REVISAO = Status.APROVADO ∧
          wDelivery.providerUid ≠ "" →
        new.map (fun n => (n.toUid, n.type, n.read)) =
          [(wDelivery.providerUid, NotificationType.APPROVED, false)]) ∧
      (¬(UserRole.PRESTADOR = UserRole.PRESTADOR ∧ Status.REVISAO = Status.REVISAO) →
        ¬(UserRole.PRESTADOR = UserRole.ADMIN ∧ Status.REVISAO = Status.AJUSTES ∧
            wDelivery.providerUid ≠ "") →
        ¬(UserRole.PRESTADOR = UserRole.ADMIN ∧ Status.REVISAO = Status.APROVADO ∧
            wDelivery.providerUid ≠ "") →
        new = []) :=
  setDeliveryStatus_notification_side_effects UserRole.PRESTADOR "d1" Status.REVISAO
    5 wStore wDelivery (by decide) (by decide)

/-- Concrete approved delivery and store for the C1 counterexample. -/
def cxDelivery1 : Delivery :=
  { id := "d1", projectId := "p1", client := "c", project := "P", title := "T",
    deadline := "2025-01-01", status := .APROVADO, priority := .MEDIA,
    provider := "U", providerUid := "u1" }

def cxStore1 : Store :=
  { users := [], projects := [], deliveries := [cxDelivery1],
    notifications := [], nextNotifId := 0 }

/-- C1 counterexample: the triple (APROVADO, PRESTADOR, REVISAO) is not in
the transition table of section 4.2, yet a contractor's `setDeliveryStatus`
call on an approved delivery succeeds and changes the stored status to
REVISAO — there is no `TransitionDenied` and the stored status is not left
unchanged. -/
theorem setDeliveryStatus_no_transition_check_counterexample :
    cxDelivery1.status = Status.APROVADO ∧
    ((setDeliveryStatus UserRole.PRESTADOR "d1" Status.REVISAO 3 cxStore1).deliveries.find?
        (fun d => d.id = "d1")).map (fun d => d.status) = some Status.REVISAO ∧
    Status.REVISAO ≠ Status.APROVADO := by decide

/-- C1 amended: the function `setDeliveryStatus` checks no transition table — for every
(state, caller role, requested state) triple it unconditionally writes the
requested status to the existing delivery, and no `TransitionDenied`
condition exists.  The only gating in the canonical variant is which buttons
the detail view renders: the contractor is offered the move to REVISAO
exactly when the status is not APROVADO, and the admin is offered
APROVADO/AJUSTES exactly when the status is REVISAO. -/
theorem setDeliveryStatus_unconditional
    (role : UserRole) (did : String) (ns : Status) (now : Nat) (st : Store)
    (d : Delivery)
    (hd : st.deliveries.find? (fun x => x.id = did) = some d) :
    (∀ x ∈ (setDeliveryStatus role did ns now st).deliveries,
        x.id = did → x.status = ns) ∧
    (∀ (r : UserRole) (dd : Delivery),
        prestadorSubmitOffered r dd = true ↔
          r = UserRole.PRESTADOR ∧ dd.status ≠ Status.APROVADO) ∧
    (∀ (r : UserRole) (dd : Delivery),
        adminReviewOffered r dd = true ↔
          r = UserRole.ADMIN ∧ dd.status = Status.REVISAO) := by
  refine ⟨?_, ?_, ?_⟩
  · intro x hx hid
    rw [setDeliveryStatus_deliveries_of_found hd] at hx
    exact mem_updateDeliveryStatus hx hid
  · intro r dd
    unfold prestadorSubmitOffered
    simp
  · intro r dd
    unfold adminReviewOffered
    simp

/-- Witness for the amended C1: a concrete contractor call on the pending
delivery of `wStore` lands on status REVISAO. -/
theorem setDeliveryStatus_unconditional_witness :
    wStore.deliveries.find? (fun x => x.id = "d1") = some wDelivery ∧
    ({ wDelivery with status := Status.REVISAO } : Delivery).status = Status.REVISAO :=
  ⟨by decide,
    (setDeliveryStatus_unconditional UserRole.PRESTADOR "d1" Status.REVISAO 3 wStore
        wDelivery (by decide)).1
      { wDelivery with status := Status.REVISAO } (by decide) (by decide)⟩

/-- Concrete pending delivery without any attachment record, for the C2
counterexample. -/
def cxDelivery2 : Delivery :=
  { id := "d2", projectId := "p1", client := "c", project := "P", title := "T",
    deadline := "2025-01-01", status := .PENDENTE, priority := .MEDIA,
    provider := "U", providerUid := "u1", attachments := [] }

def cxStore2 : Store :=
  { users := [], projects := [], deliveries := [cxDelivery2],
    notifications := [], nextNotifId := 0 }

/-- C2 counterexample: a contractor's submission of a PENDENTE delivery with
zero attachment-metadata records succeeds and sets the status to REVISAO —
the attempt does not fail and the status does not stay unchanged. -/
theorem submit_without_attachments_counterexample :
    cxDelivery2.attachments = [] ∧
    cxDelivery2.status = Status.PENDENTE ∧
    ((setDeliveryStatus UserRole.PRESTADOR "d2" Status.REVISAO 3 cxStore2).deliveries.find?
        (fun d => d.id = "d2")).map (fun d => d.status) = some Status.REVISAO := by
  decide

/-- C2 amended: the canonical variant enforces no attachment precondition —
a contractor's move of an existing delivery to REVISAO always writes status
REVISAO, even when the delivery carries no attachment-metadata record at
all (the variant has no code path that ever adds an attachment). -/
theorem submit_requires_no_attachments
    (did : String) (now : Nat) (st : Store) (d : Delivery)
    (hd : st.deliveries.find? (fun x => x.id = did) = some d)
    (_hatt : d.attachments = []) :
    ∀ x ∈ (setDeliveryStatus UserRole.PRESTADOR did Status.REVISAO now st).deliveries,
      x.id = did → x.status = Status.REVISAO := by
  intro x hx hid
  rw [setDeliveryStatus_deliveries_of_found hd] at hx
  exact mem_updateDeliveryStatus hx hid

/-- Witness for the amended C2 on the concrete attachment-free store. -/
theorem submit_requires_no_attachments_witness :
    cxStore2.deliveries.find? (fun x => x.id = "d2") = some cxDelivery2 ∧
    cxDelivery2.attachments = [] ∧
    ({ cxDelivery2 with status := Status.REVISAO } : Delivery).status = Status.REVISAO :=
  ⟨by decide, by decide,
    submit_requires_no_attachments "d2" 3 cxStore2 cxDelivery2 (by decide) (by decide)
      { cxDelivery2 with status := Status.REVISAO } (by decide) (by decide)⟩

/-- C4: scope containment.  Every project listed for a contractor caller has
the caller among its `memberUids`; every delivery listed for a contractor is
assigned to the caller (`providerUid` equality); the admin user listing
equals the unfiltered user collection minus `DELETED` users. -/
theorem scoped_listings_contained :
    (∀ (uid : String) (projects : List Project) (p : Project),
        p ∈ projectsListing false uid projects → uid ∈ p.memberUids) ∧
    (∀ (uid : String) (deliveries : List Delivery) (d : Delivery),
        d ∈ deliveriesListing false uid deliveries → d.providerUid = uid) ∧
    (∀ users : List UserProfile,
        usersListing true users =
          users.filter (fun u => u.status ≠ UserStatus.DELETED)) := by
  refine ⟨?_, ?_, ?_⟩
  · intro uid projects p hp
    unfold projectsListing getBaseProjectsQuery at hp
    simp only [Bool.false_eq_true, if_false] at hp
    rcases List.mem_filter.mp hp with ⟨hp2, _⟩
    rcases List.mem_filter.mp hp2 with ⟨_, hb⟩
    simpa using hb
  · intro uid deliveries d hd
    unfold deliveriesListing getBaseDeliveriesQuery at hd
    simp only [Bool.false_eq_true, if_false] at hd
    rcases List.mem_filter.mp hd with ⟨hd2, _⟩
    rcases List.mem_filter.mp hd2 with ⟨_, hb⟩
    simpa using hb
  · intro users
    rfl

/-- Concrete project for the C4 witness: contractor `u1` is a member. -/
def wProject : Project :=
  { id := "p1", client := "c", name := "P", manager := "M",
    memberUids := ["u1"], status := .EM_ANDAMENTO }

/-- Witness for C4 on concrete one-element collections. -/
theorem scoped_listings_contained_witness :
    "u1" ∈ wProject.memberUids ∧ wDelivery.providerUid = "u1" :=
  ⟨scoped_listings_contained.1 "u1" [wProject] wProject (by decide),
   scoped_listings_contained.2.1 "u1" [wDelivery] wDelivery (by decide)⟩

/-- C10: every write to a user profile preserves the invariant
`active == (status == "ACTIVE")`.  The creation paths (email signup, first
Google sign-in, default profile on first sign-in) produce status PENDING
with active false, approval produces ACTIVE/true, rejection REJECTED/false,
soft delete DELETED/false, and the Google merge write never touches
role/status/active, so no reachable profile violates the invariant. -/
theorem user_writes_preserve_active_invariant :
    (∀ (w : UserWrite) (u : UserProfile),
        activeConsistent u → activeConsistent (applyUserWrite w u)) ∧
    (∀ (uid email name pixKey : String) (now : Nat),
        (signupProfile uid email name pixKey now).status = UserStatus.PENDING ∧
        (signupProfile uid email name pixKey now).active = false ∧
        activeConsistent (signupProfile uid email name pixKey now)) ∧
    (∀ (uid email name photoURL : String) (now : Nat),
        (firstSignInProfile uid email name photoURL now).status = UserStatus.PENDING ∧
        (firstSignInProfile uid email name photoURL now).active = false ∧
        activeConsistent (firstSignInProfile uid email name photoURL now)) ∧
    (∀ (role : UserRole) (now : Nat) (u : UserProfile),
        (approveUser role now u).status = UserStatus.ACTIVE ∧
        (approveUser role now u).active = true) ∧
    (∀ u : UserProfile,
        (rejectUser u).status = UserStatus.REJECTED ∧ (rejectUser u).active = false) ∧
    (∀ (now : Nat) (u : UserProfile),
        (softDeleteUser now u).status = UserStatus.DELETED ∧
        (softDeleteUser now u).active = false) := by
  refine ⟨?_, ?_, ?_, ?_, ?_, ?_⟩
  · intro w u h
    cases w with
    | approve role now => simp [applyUserWrite, approveUser, activeConsistent]
    | reject => simp [applyUserWrite, rejectUser, activeConsistent]
    | softDelete now => simp [applyUserWrite, softDeleteUser, activeConsistent]
    | googleMerge e n p =>
        simpa [applyUserWrite, googleMergeProfile, activeConsistent] using h
  · intro uid email name pixKey now
    exact ⟨rfl, rfl, by simp [signupProfile, activeConsistent]⟩
  · intro uid email name photoURL now
    exact ⟨rfl, rfl, by simp [firstSignInProfile, activeConsistent]⟩
  · intro role now u
    exact ⟨rfl, rfl⟩
  · intro u
    exact ⟨rfl, rfl⟩
  · intro now u
    exact ⟨rfl, rfl⟩

/-- Witness for C10: the merge write applied to a concrete consistent
profile. -/
theorem user_writes_preserve_active_invariant_witness :
    activeConsistent (applyUserWrite (UserWrite.googleMerge "e" "n" "p") wAdmin) :=
  user_writes_preserve_active_invariant.1 _ wAdmin (by decide)

/-- Concrete scenario for C5: project `p5` has the single member `m1`, yet
the form names the non-member `ghost` as provider. -/
def cxProject5 : Project :=
  { id := "p5", client := "c", name := "P5", manager := "M",
    memberUids := ["m1"], status := .EM_ANDAMENTO }

def cxAdmin5 : UserProfile :=
  { uid := "adm", email := "a@x", name := "A", role := .ADMIN,
    status := .ACTIVE, active := true }

def cxForm5 : DeliveryForm :=
  { projectId := "p5", title := "T", deadline := "2025-02-03",
    priority := .MEDIA, providerUid := "ghost", providerName := "G",
    description := "" }

def cxStore5 : Store :=
  { users := [cxAdmin5], projects := [cxProject5], deliveries := [],
    notifications := [], nextNotifId := 0 }

/-- C5 counterexample: `saveDelivery` writes the delivery document even
though the chosen `providerUid` is not in the target project's
`memberUids` — no validation fails and a document is created. -/
theorem createDelivery_nonmember_counterexample :
    cxProject5.memberUids.contains cxForm5.providerUid = false ∧
    (saveDelivery cxAdmin5 cxForm5 9 cxStore5).deliveries.length = 1 ∧
    (saveDelivery cxAdmin5 cxForm5 9 cxStore5).deliveries.map
        (fun d => (d.projectId, d.providerUid)) = [("p5", "ghost")] := by
  decide

/-- C5 amended: `saveDelivery` validates only admin role, project existence,
nonempty sanitized title, ISO deadline and nonempty `providerUid`; with
these satisfied it writes the delivery document regardless of project
membership.  Membership is enforced only by the creation form's dropdown
(`projectMembers`), which offers exclusively members of the selected
project. -/
theorem saveDelivery_no_membership_validation
    (profile : UserProfile) (form : DeliveryForm) (now : Nat) (st : Store)
    (p : Project)
    (hrole : profile.role = UserRole.ADMIN)
    (hp : st.projects.find? (fun x => x.id = form.projectId) = some p)
    (htitle : sanitize form.title ≠ "")
    (hdate : isValidDateISO form.deadline = true)
    (hprov : form.providerUid ≠ "") :
    (saveDelivery profile form now st).deliveries =
      st.deliveries ++
        [{ id := "", projectId := p.id, client := p.client, project := p.name,
           title := sanitize form.title, deadline := form.deadline,
           status := Status.PENDENTE, priority := form.priority,
           provider := if form.providerName = "" then "Prestador" else form.providerName,
           providerUid := form.providerUid,
           description := sanitize form.description,
           checklist := [], attachments := [], comments := [],
           createdAt := now }] ∧
    (∀ u ∈ projectMembers form.projectId st.projects
        (usersListing (profile.role = UserRole.ADMIN) st.users),
      p.memberUids.contains u.uid = true) := by
  constructor
  · unfold saveDelivery
    rw [if_neg (by simp [hrole]), hp]
    dsimp only
    rw [if_neg htitle, if_neg (by simp [hdate]), if_neg hprov]
    rfl
  · intro u hu
    unfold projectMembers at hu
    by_cases hpid : form.projectId = ""
    · rw [if_pos hpid] at hu
      cases hu
    · rw [if_neg hpid] at hu
      rw [hp] at hu
      rcases List.mem_filter.mp hu with ⟨_, hb⟩
      simpa using hb

/-- Member-provider form for the C5 witness. -/
def wForm5 : DeliveryForm :=
  { cxForm5 with providerUid := "m1", providerName := "M1" }

/-- Witness for the amended C5 on a concrete valid creation. -/
theorem saveDelivery_no_membership_validation_witness :
    (saveDelivery cxAdmin5 wForm5 9 cxStore5).deliveries =
      cxStore5.deliveries ++
        [{ id := "", projectId := cxProject5.id, client := cxProject5.client,
           project := cxProject5.name,
           title := sanitize wForm5.title, deadline := wForm5.deadline,
           status := Status.PENDENTE, priority := wForm5.priority,
           provider := if wForm5.providerName = "" then "Prestador" else wForm5.providerName,
           providerUid := wForm5.providerUid,
           description := sanitize wForm5.description,
           checklist := [], attachments := [], comments := [],
           createdAt := 9 }] :=
  (saveDelivery_no_membership_validation cxAdmin5 wForm5 9 cxStore5 cxProject5
    (by decide) (by decide) (by decide) (by decide) (by decide)).1

lemma countP_removeMatching (pid : String) (k : Nat) (l : List Delivery) :
    (removeMatching pid k l).countP (fun d => d.projectId = pid) =
      l.countP (fun d => d.projectId = pid) - k := by
  induction l generalizing k with
  | nil => cases k <;> simp [removeMatching]
  | cons d rest ih =>
      cases k with
      | zero => simp [removeMatching]
      | succ k =>
          by_cases h : d.projectId = pid
          · rw [show removeMatching pid (k + 1) (d :: rest) =
                  removeMatching pid k rest from by simp [removeMatching, h]]
            rw [ih, List.countP_cons, if_pos (by simp [h])]
            omega
          · have hd : (decide (d.projectId = pid)) = false := by simp [h]
            rw [show removeMatching pid (k + 1) (d :: rest) =
                  d :: removeMatching pid (k + 1) rest from by
                simp [removeMatching, h]]
            rw [List.countP_cons, List.countP_cons, ih, hd]
            simp

/-- Concrete project with 201 deliveries for the C6 counterexample. -/
def cxDelivery6 : Delivery :=
  { id := "dx", projectId := "p6", client := "c", project := "P6", title := "T",
    deadline := "2025-01-01", status := .PENDENTE, priority := .MEDIA,
    provider := "U" }

def cxProject6 : Project :=
  { id := "p6", client := "c", name := "P6", manager := "M",
    status := .EM_ANDAMENTO }

def cxStore6 : Store :=
  { users := [], projects := [cxProject6],
    deliveries := List.replicate 201 cxDelivery6,
    notifications := [], nextNotifId := 0 }

/-- C6 counterexample: deleting a project with N = 201 deliveries leaves one
delivery document still referencing the deleted project id — the cascade
query is capped at 200 documents, so the claimed property fails for
N = 201. -/
theorem deleteProject_cascade_counterexample :
    cxStore6.deliveries.countP (fun d => d.projectId = "p6") = 201 ∧
    (deleteProject "p6" cxStore6).deliveries.countP
        (fun d => d.projectId = "p6") = 1 := by
  have h6 : cxStore6.deliveries = List.replicate 201 cxDelivery6 := by
    simp only [cxStore6]
  have hdel : ∀ st : Store, (deleteProject "p6" st).deliveries =
      removeMatching "p6" 200 st.deliveries := fun _ => rfl
  have hdel := hdel cxStore6
  constructor
  · rw [h6, List.countP_replicate, if_pos (by decide)]
  · rw [hdel, countP_removeMatching, h6, List.countP_replicate,
      if_pos (by decide)]

/-- C6 amended: deleting a project removes the project document and cascades
over at most 200 of its deliveries (the `limit(200)` query): exactly
`N - 200` referencing deliveries remain (truncated subtraction), hence 0
when the project has at most 200 deliveries. -/
theorem deleteProject_cascade_bounded (pid : String) (st : Store) :
    (deleteProject pid st).deliveries.countP (fun d => d.projectId = pid) =
      st.deliveries.countP (fun d => d.projectId = pid) - 200 ∧
    (st.deliveries.countP (fun d => d.projectId = pid) ≤ 200 →
      (deleteProject pid st).deliveries.countP (fun d => d.projectId = pid) = 0) ∧
    (∀ p ∈ (deleteProject pid st).projects, p.id ≠ pid) := by
  refine ⟨countP_removeMatching pid 200 st.deliveries, ?_, ?_⟩
  · intro h
    rw [show (deleteProject pid st).deliveries =
          removeMatching pid 200 st.deliveries from rfl,
        countP_removeMatching]
    omega
  · intro p hp
    rcases List.mem_filter.mp hp with ⟨_, hb⟩
    simpa using hb

/-- Witness for the amended C6: a one-delivery project cascades to zero
remaining references. -/
theorem deleteProject_cascade_bounded_witness :
    wStore.deliveries.countP (fun d => d.projectId = "p1") ≤ 200 ∧
    (deleteProject "p1" wStore).deliveries.countP
        (fun d => d.projectId = "p1") = 0 :=
  ⟨by decide, (deleteProject_cascade_bounded "p1" wStore).2.1 (by decide)⟩

/-- Concrete store for C7: two projects and one delivery. -/
def cxProject7b : Project :=
  { id := "p2", client := "c", name := "P2", manager := "M",
    status := .EM_ANDAMENTO }

def cxStore7 : Store :=
  { users := [], projects := [wProject, cxProject7b],
    deliveries := [wDelivery], notifications := [], nextNotifId := 0 }

/-- C7 counterexample: `deleteProject` and `deleteDelivery` are hard
deletes — after the calls no document with the deleted id remains in the
store at all, deletion-marked or otherwise, contradicting the claim that
Project and Delivery deletes are soft. -/
theorem delete_not_soft_counterexample :
    cxStore7.projects.find? (fun p => p.id = "p1") = some wProject ∧
    (deleteProject "p1" cxStore7).projects.find? (fun p => p.id = "p1") = none ∧
    cxStore7.deliveries.find? (fun d => d.id = "d1") = some wDelivery ∧
    (deleteDelivery "d1" cxStore7).deliveries.find? (fun d => d.id = "d1") = none := by
  decide

/-- C7 amended: only the User delete is soft — the user record remains with
status DELETED, active false and `deletedAt` set, and DELETED users are
filtered out of every user listing; Project and Delivery deletes physically
remove the documents. -/
theorem delete_soft_only_for_users
    (now : Nat) (u : UserProfile) (isAdmin : Bool) (us : List UserProfile) :
    ((softDeleteUser now u).status = UserStatus.DELETED ∧
      (softDeleteUser now u).active = false ∧
      (softDeleteUser now u).deletedAt = some now) ∧
    (∀ v ∈ usersListing isAdmin us, v.status ≠ UserStatus.DELETED) ∧
    (∀ (pid : String) (st : Store),
      ∀ p ∈ (deleteProject pid st).projects, p.id ≠ pid) ∧
    (∀ (did : String) (st : Store),
      ∀ d ∈ (deleteDelivery did st).deliveries, d.id ≠ did) := by
  refine ⟨⟨rfl, rfl, rfl⟩, ?_, ?_, ?_⟩
  · intro v hv
    unfold usersListing at hv
    rcases List.mem_filter.mp hv with ⟨_, hb⟩
    simpa using hb
  · intro pid st p hp
    rcases List.mem_filter.mp hp with ⟨_, hb⟩
    simpa using hb
  · intro did st d hd
    rcases List.mem_filter.mp hd with ⟨_, hb⟩
    simpa using hb

/-- Witness for the amended C7 at concrete inputs. -/
theorem delete_soft_only_for_users_witness :
    (softDeleteUser 4 wAdmin).status = UserStatus.DELETED ∧
    cxProject7b.id ≠ "p1" :=
  ⟨(delete_soft_only_for_users 4 wAdmin true []).1.1,
   (delete_soft_only_for_users 4 wAdmin true []).2.2.1 "p1" cxStore7
     cxProject7b (by decide)⟩

/-- Already-deleted user for the C8 counterexample. -/
def cxUser8 : UserProfile :=
  { uid := "u8", email := "", name := "U8", role := .PRESTADOR,
    status := .DELETED, active := false, deletedAt := some 1 }

/-- C8 counterexample: soft-deleting an already-DELETED user at a later
timestamp overwrites the stored `deletedAt` (some 1 becomes some 2) — the
repeated soft delete is not a no-op on `deletedAt`. -/
theorem soft_delete_overwrites_deletedAt_counterexample :
    cxUser8.status = UserStatus.DELETED ∧
    cxUser8.deletedAt = some 1 ∧
    (softDeleteUser 2 cxUser8).deletedAt = some 2 ∧
    (softDeleteUser 2 cxUser8).deletedAt ≠ cxUser8.deletedAt := by decide

/-- C8 amended: re-running soft delete on an already-DELETED user does not
error, leaves status DELETED and active false, but overwrites `deletedAt`
with the current call's timestamp; the operation is idempotent only at a
fixed timestamp (applying it twice with the same `now` equals applying it
once). -/
theorem soft_delete_repeat (now : Nat) (u : UserProfile)
    (_h : u.status = UserStatus.DELETED) :
    (softDeleteUser now u).status = UserStatus.DELETED ∧
    (softDeleteUser now u).active = false ∧
    (softDeleteUser now u).deletedAt = some now ∧
    softDeleteUser now (softDeleteUser now u) = softDeleteUser now u := by
  exact ⟨rfl, rfl, rfl, rfl⟩

/-- Witness for the amended C8 on the concrete deleted user. -/
theorem soft_delete_repeat_witness :
    cxUser8.status = UserStatus.DELETED ∧
    (softDeleteUser 5 cxUser8).deletedAt = some 5 ∧
    softDeleteUser 5 (softDeleteUser 5 cxUser8) = softDeleteUser 5 cxUser8 :=
  ⟨by decide, (soft_delete_repeat 5 cxUser8 (by decide)).2.2.1,
   (soft_delete_repeat 5 cxUser8 (by decide)).2.2.2⟩

lemma saveDelivery_notifications (profile : UserProfile) (form : DeliveryForm)
    (now : Nat) (st : Store) :
    (saveDelivery profile form now st).notifications = st.notifications := by
  unfold saveDelivery createDelivery
  split
  · rfl
  · split
    · rfl
    · dsimp only
      by_cases ht : sanitize form.title = ""
      · rw [if_pos ht]
      · rw [if_neg ht]
        by_cases hdt : ¬ isValidDateISO form.deadline = true
        · rw [if_pos hdt]
        · rw [if_neg hdt]
          by_cases hpv : form.providerUid = ""
          · rw [if_pos hpv]
          · rw [if_neg hpv]

lemma find?_append_some {p : AppNotification → Bool}
    {l1 l2 : List AppNotification} {x : AppNotification}
    (h : l1.find? p = some x) : (l1 ++ l2).find? p = some x := by
  rw [List.find?_append, h]
  rfl

lemma setDeliveryStatus_notifications_tail (role : UserRole) (did : String)
    (ns : Status) (now : Nat) (st : Store) :
    ∃ tail, (setDeliveryStatus role did ns now st).notifications =
        st.notifications ++ tail ∧ ∀ n ∈ tail, n.read = false := by
  cases hd : st.deliveries.find? (fun x => x.id = did) with
  | none =>
      refine ⟨[], ?_, ?_⟩
      · rw [setDeliveryStatus_not_found hd, List.append_nil]
      · intro n hn; cases hn
  | some d =>
      refine ⟨_, setDeliveryStatus_notifications_of_found hd, ?_⟩
      intro n hn
      split at hn
      · exact (mem_fanoutNotifs hn).2.1
      · split at hn
        · rw [List.mem_singleton] at hn
          subst hn; rfl
        · split at hn
          · rw [List.mem_singleton] at hn
            subst hn; rfl
          · cases hn

lemma addComment_notifications_tail (caller : UserProfile)
    (did text cid : String) (now : Nat) (st : Store) :
    ∃ tail, (addComment caller did text cid now st).notifications =
        st.notifications ++ tail ∧ ∀ n ∈ tail, n.read = false := by
  unfold addComment
  dsimp only
  by_cases ht : sanitize text = ""
  · rw [if_pos ht]
    exact ⟨[], (List.append_nil _).symm, fun n hn => absurd hn (List.not_mem_nil n)⟩
  · rw [if_neg ht]
    cases hfind : st.deliveries.find? (fun x => x.id = did) with
    | none =>
        exact ⟨[], (List.append_nil _).symm, fun n hn => absurd hn (List.not_mem_nil n)⟩
    | some d =>
        dsimp only
        by_cases hrole : caller.role = UserRole.PRESTADOR
        · rw [if_pos hrole]
          refine ⟨_, rfl, ?_⟩
          intro n hn
          exact (mem_fanoutNotifs hn).2.1
        · rw [if_neg hrole]
          exact ⟨[], (List.append_nil _).symm, fun n hn => absurd hn (List.not_mem_nil n)⟩

lemma readOf_markAllRead (uid : String) (st : Store) (i : Nat)
    (h : readOf st i = some true) :
    readOf (markAllNotificationsRead uid st) i = some true := by
  unfold readOf at h ⊢
  obtain ⟨n, hf, hr⟩ := Option.map_eq_some'.mp h
  unfold markAllNotificationsRead
  rw [List.find?_map]
  have hcomp :
      ((fun m : AppNotification => (m.id = i : Bool)) ∘
        fun m : AppNotification =>
          if m.toUid = uid ∧ m.read = false then { m with read := true } else m) =
      fun m : AppNotification => (m.id = i : Bool) := by
    funext m
    by_cases hc : m.toUid = uid ∧ m.read = false
    · simp [Function.comp, hc]
    · simp [Function.comp, hc]
  rw [hcomp, hf]
  have hfix :
      (if n.toUid = uid ∧ n.read = false then { n with read := true } else n).read
        = true := by
    by_cases hc : n.toUid = uid ∧ n.read = false
    · simp [hc]
    · simp [hc, hr]
  simp [hfix]

lemma readOf_applyOp (op : Op) (st : Store) (i : Nat)
    (h : readOf st i = some true) : readOf (applyOp op st) i = some true := by
  cases op with
  | userWrite uid w => exact h
  | newProject p => exact h
  | editProject pid c n de m now => exact h
  | removeProject pid => exact h
  | newDelivery profile form now =>
      unfold readOf at h ⊢
      rw [show (applyOp (.newDelivery profile form now) st) =
            saveDelivery profile form now st from rfl,
          saveDelivery_notifications]
      exact h
  | removeDelivery did => exact h
  | setStatus role did ns now =>
      obtain ⟨tail, heq, -⟩ :=
        setDeliveryStatus_notifications_tail role did ns now st
      unfold readOf at h ⊢
      obtain ⟨n, hf, hr⟩ := Option.map_eq_some'.mp h
      rw [show (applyOp (.setStatus role did ns now) st) =
            setDeliveryStatus role did ns now st from rfl,
          heq, find?_append_some hf]
      simpa using hr
  | comment caller did text cid now =>
      obtain ⟨tail, heq, -⟩ :=
        addComment_notifications_tail caller did text cid now st
      unfold readOf at h ⊢
      obtain ⟨n, hf, hr⟩ := Option.map_eq_some'.mp h
      rw [show (applyOp (.comment caller did text cid now) st) =
            addComment caller did text cid now st from rfl,
          heq, find?_append_some hf]
      simpa using hr
  | markAllRead uid => exact readOf_markAllRead uid st i h

/-- C9: the notification read flag is monotonic.  Every notification record
written by any operation is created with `read = false`; and once a
notification's `read` flag is observed `true`, no reachable sequence of
application operations ever makes it observable as `false` (or anything but
`true`) again. -/
theorem notification_read_monotonic :
    (∀ (op : Op) (st : Store),
      ∀ n ∈ (applyOp op st).notifications.drop st.notifications.length,
        n.read = false) ∧
    (∀ (ops : List Op) (st : Store) (i : Nat),
      readOf st i = some true → readOf (runOps ops st) i = some true) := by
  constructor
  · intro op st n hn
    cases op with
    | userWrite uid w =>
        rw [show (applyOp (.userWrite uid w) st).notifications =
              st.notifications from rfl, List.drop_length] at hn
        cases hn
    | newProject p =>
        rw [show (applyOp (.newProject p) st).notifications =
              st.notifications from rfl, List.drop_length] at hn
        cases hn
    | editProject pid c nn de m now =>
        rw [show (applyOp (.editProject pid c nn de m now) st).notifications =
              st.notifications from rfl, List.drop_length] at hn
        cases hn
    | removeProject pid =>
        rw [show (applyOp (.removeProject pid) st).notifications =
              st.notifications from rfl, List.drop_length] at hn
        cases hn
    | newDelivery profile form now =>
        rw [show (applyOp (.newDelivery profile form now) st) =
              saveDelivery profile form now st from rfl,
            saveDelivery_notifications, List.drop_length] at hn
        cases hn
    | removeDelivery did =>
        rw [show (applyOp (.removeDelivery did) st).notifications =
              st.notifications from rfl, List.drop_length] at hn
        cases hn
    | setStatus role did ns now =>
        obtain ⟨tail, heq, hread⟩ :=
          setDeliveryStatus_notifications_tail role did ns now st
        rw [show (applyOp (.setStatus role did ns now) st) =
              setDeliveryStatus role did ns now st from rfl,
            heq, List.drop_left] at hn
        exact hread n hn
    | comment caller did text cid now =>
        obtain ⟨tail, heq, hread⟩ :=
          addComment_notifications_tail caller did text cid now st
        rw [show (applyOp (.comment caller did text cid now) st) =
              addComment caller did text cid now st from rfl,
            heq, List.drop_left] at hn
        exact hread n hn
    | markAllRead uid =>
        rw [show (applyOp (.markAllRead uid) st).notifications =
              st.notifications.map (fun n =>
                if n.toUid = uid ∧ n.read = false then { n with read := true }
                else n) from rfl] at hn
        rw [show st.notifications.length =
              (st.notifications.map (fun n =>
                if n.toUid = uid ∧ n.read = false then { n with read := true }
                else n)).length from (List.length_map _ _).symm,
            List.drop_length] at hn
        cases hn
  · intro ops
    induction ops with
    | nil => intro st i h; exact h
    | cons op rest ih =>
        intro st i h
        exact ih (applyOp op st) i (readOf_applyOp op st i h)

/-- Already-read notification and store for the C9 witness. -/
def wNotif : AppNotification :=
  { id := 0, toUid := "a1", type := .SUBMITTED, title := "t", read := true }

def wStore9 : Store :=
  { users := [], projects := [], deliveries := [], notifications := [wNotif],
    nextNotifId := 1 }

/-- Witness for C9: after a further mark-all-read operation the concrete
read flag is still `true`. -/
theorem notification_read_monotonic_witness :
    readOf (runOps [Op.markAllRead "a1"] wStore9) 0 = some true :=
  notification_read_monotonic.2 [Op.markAllRead "a1"] wStore9 0 (by decide)

end PortalFMEA
